import Mathlib

/-!
Shallow embedding of the gosqlite prepared-statement layer (src/stmt.go).

The native SQLite engine is an external collaborator: every value the Go
code obtains from a `sqlite3_column_*` or `sqlite3_step` call is modelled
as an input (a field of `Col`, or an explicit result-code argument), and
every state-changing native call the Go code performs is recorded as an
explicit event so that theorems can speak about what reached the engine.
Go strings are byte sequences; where the code measures or indexes bytes
(ScanTime) the model works on the UTF-8 byte list of the string.
-/

namespace GoSqlite

/-- SQLite fundamental datatypes, from the `Type` constants in src/stmt.go
(SQLITE_INTEGER, SQLITE_FLOAT, SQLITE3_TEXT, SQLITE_BLOB, SQLITE_NULL). -/
inductive SQLType where
  | integer
  | float
  | blob
  | null
  | text
deriving DecidableEq, Repr

/-- Mapping of `typeText` in src/stmt.go. -/
def typeText : SQLType → String
  | .integer => "Integer"
  | .float => "Float"
  | .blob => "Blob"
  | .null => "Null"
  | .text => "Text"

/-- Errors produced by the layer.  `specific` is `Stmt.specificError`
(code ErrSpecific, generated locally); `native` is `Stmt.error` wrapping a
non-OK native result code together with the call-site detail string and
the SQL text of the owning statement; `plain` is a bare Go error built
with errors.New; `fault` marks a Go runtime panic path. -/
inductive Err where
  | specific (msg : String)
  | native (code : Int) (details : String) (sql : String)
  | plain (msg : String)
  | fault (msg : String)
deriving DecidableEq, Repr

/-- True exactly for errors generated by this layer itself
(`specificError`), as opposed to wrapped native engine results. -/
def Err.isLocal : Err → Bool
  | .specific _ => true
  | _ => false

/-- Mirrors `Stmt.checkTypeMismatch` in src/stmt.go lines 1005-1025: only
lossy conversion is reported as an error. -/
def checkTypeMismatch (source target : SQLType) : Option Err :=
  match target with
  | .integer =>
    match source with
    | .float | .text | .blob =>
      some (.specific ("type mismatch, source " ++ typeText source ++ " vs target " ++ typeText target))
    | _ => none
  | .float =>
    match source with
    | .text | .blob =>
      some (.specific ("type mismatch, source " ++ typeText source ++ " vs target " ++ typeText target))
    | _ => none
  | _ => none

/-- UTF-8 encoding of one character, as the list of its byte values.
Go strings are byte sequences; `len(s)` and `s[i]` in src/stmt.go act on
these bytes. -/
def charBytes (c : Char) : List Nat :=
  let n := c.toNat
  if n < 128 then [n]
  else if n < 2048 then [192 + n / 64, 128 + n % 64]
  else if n < 65536 then [224 + n / 4096, 128 + (n / 64) % 64, 128 + n % 64]
  else [240 + n / 262144, 128 + (n / 4096) % 64, 128 + (n / 64) % 64, 128 + n % 64]

/-- Byte sequence of a Go string. -/
def utf8Bytes (s : String) : List Nat :=
  s.data.flatMap charBytes

/-- Value of an ASCII digit byte. -/
def digitVal (b : Nat) : Option Nat :=
  if 48 ≤ b ∧ b ≤ 57 then some (b - 48) else none

/-- Parses exactly `k` digit bytes into a number (accumulator form). -/
def fixedNumAux : Nat → Nat → List Nat → Option (Nat × List Nat)
  | 0, acc, v => some (acc, v)
  | _ + 1, _, [] => none
  | k + 1, acc, b :: v =>
    match digitVal b with
    | some d => fixedNumAux k (acc * 10 + d) v
    | none => none

/-- Parses exactly `k` digit bytes into a number. -/
def fixedNum (k : Nat) (v : List Nat) : Option (Nat × List Nat) :=
  fixedNumAux k 0 v

/-- Splits off the leading run of digit bytes. -/
def takeDigits : List Nat → List Nat × List Nat
  | [] => ([], [])
  | b :: v =>
    if 48 ≤ b ∧ b ≤ 57 then
      let p := takeDigits v
      (b :: p.1, p.2)
    else ([], b :: v)

/-- Digit run scaled to nanoseconds, as the Go time package scales a
fractional-second field (at most nine digits are significant). -/
def digitsToNanos (ds : List Nat) : Nat :=
  let ds9 := ds.take 9
  (ds9.foldl (fun a b => a * 10 + (b - 48)) 0) * 10 ^ (9 - ds9.length)

/-- Optional fractional second: consumed only when the value starts with
a dot followed by a digit (semantics of a trailing ".999" layout token in
the Go time package). -/
def fracPart (v : List Nat) : Nat × List Nat :=
  match v with
  | 46 :: b :: rest =>
    if 48 ≤ b ∧ b ≤ 57 then
      let p := takeDigits (b :: rest)
      (digitsToNanos p.1, p.2)
    else (0, v)
  | _ => (0, v)

/-- Broken-down result of the Go time package parse, with the defaults
time.Parse uses for fields missing from the layout (year 0, month 1,
day 1, zero clock, no explicit zone). -/
structure GoDateTime where
  year : Nat := 0
  month : Nat := 1
  day : Nat := 1
  hour : Nat := 0
  minute : Nat := 0
  second : Nat := 0
  nanos : Nat := 0
  tzOffsetSeconds : Option Int := none
deriving DecidableEq, Repr

/-- Zero value of Go time.Time: January 1 of year 1, midnight UTC. -/
def zeroGoTime : GoDateTime := { year := 1 }

/-- Interpreter for the reference layouts that `Stmt.ScanTime` can select
(tokens 2006, 01, 02, 15, 04, 05, .000, .999, Z07:00 and literal bytes),
modelling time.Parse of the Go standard library on those layouts.  Both
the layout and the value are byte lists. -/
def runLayout : List Nat → List Nat → GoDateTime → Option GoDateTime
  | [], v, p => if v = [] then some p else none
  | 50 :: 48 :: 48 :: 54 :: rest, v, p =>
    match fixedNum 4 v with
    | some (y, v') => runLayout rest v' { p with year := y }
    | none => none
  | 48 :: 49 :: rest, v, p =>
    match fixedNum 2 v with
    | some (m, v') => runLayout rest v' { p with month := m }
    | none => none
  | 48 :: 50 :: rest, v, p =>
    match fixedNum 2 v with
    | some (d, v') => runLayout rest v' { p with day := d }
    | none => none
  | 49 :: 53 :: rest, v, p =>
    match fixedNum 2 v with
    | some (h, v') => runLayout rest v' { p with hour := h }
    | none => none
  | 48 :: 52 :: rest, v, p =>
    match fixedNum 2 v with
    | some (mi, v') => runLayout rest v' { p with minute := mi }
    | none => none
  | 48 :: 53 :: rest, v, p =>
    match fixedNum 2 v with
    | some (sec, v') => runLayout rest v' { p with second := sec }
    | none => none
  | 46 :: 48 :: 48 :: 48 :: rest, v, p =>
    match v with
    | 46 :: a :: b :: c :: v' =>
      match digitVal a, digitVal b, digitVal c with
      | some da, some db, some dc =>
        runLayout rest v' { p with nanos := (da * 100 + db * 10 + dc) * 1000000 }
      | _, _, _ => none
    | _ => none
  | 46 :: 57 :: 57 :: 57 :: rest, v, p =>
    let q := fracPart v
    runLayout rest q.2 { p with nanos := q.1 }
  | 90 :: 48 :: 55 :: 58 :: 48 :: 48 :: rest, v, p =>
    match v with
    | 90 :: v' => runLayout rest v' { p with tzOffsetSeconds := some 0 }
    | sg :: h1 :: h2 :: 58 :: m1 :: m2 :: v' =>
      match digitVal h1, digitVal h2, digitVal m1, digitVal m2 with
      | some a, some b, some cV, some d =>
        if sg = 43 ∨ sg = 45 then
          let off : Int := ((a * 10 + b) * 3600 + (cV * 10 + d) * 60 : Nat)
          runLayout rest v' { p with tzOffsetSeconds := some (if sg = 45 then -off else off) }
        else none
      | _, _, _, _ => none
    | _ => none
  | b :: rest, v, p =>
    match v with
    | c :: v' => if c = b then runLayout rest v' p else none
    | [] => none

/-- Leap-year rule of the proleptic Gregorian calendar used by Go time. -/
def isLeap (y : Nat) : Bool :=
  y % 4 = 0 && (y % 100 != 0 || y % 400 = 0)

/-- Length of a month, for the range validation time.Parse performs. -/
def daysInMonth (y m : Nat) : Nat :=
  if m = 2 then (if isLeap y then 29 else 28)
  else if m = 4 ∨ m = 6 ∨ m = 9 ∨ m = 11 then 30
  else 31

/-- Field ranges accepted by time.Parse. -/
def validDateTime (p : GoDateTime) : Bool :=
  decide (1 ≤ p.month ∧ p.month ≤ 12 ∧ 1 ≤ p.day ∧ p.day ≤ daysInMonth p.year p.month
    ∧ p.hour < 24 ∧ p.minute < 60 ∧ p.second < 60)

/-- Model of time.Parse restricted to the layouts ScanTime selects. -/
def goTimeParse (layout value : String) : Option GoDateTime :=
  match runLayout (utf8Bytes layout) (utf8Bytes value) {} with
  | some p => if validDateTime p then some p else none
  | none => none

/-- Layout selection of `Stmt.ScanTime` (src/stmt.go lines 956-990): a
switch on len(txt), the 16/19/23 and default cases branching on whether
byte 10 of the text is the letter T (byte 84). -/
def timeLayout (bs : List Nat) : String :=
  if bs.length = 5 then "15:04"
  else if bs.length = 8 then "15:04:05"
  else if bs.length = 10 then "2006-01-02"
  else if bs.length = 12 then "15:04:05.000"
  else if bs.length = 16 then
    if bs[10]? = some 84 then "2006-01-02T15:04" else "2006-01-02 15:04"
  else if bs.length = 19 then
    if bs[10]? = some 84 then "2006-01-02T15:04:05" else "2006-01-02 15:04:05"
  else if bs.length = 23 then
    if bs[10]? = some 84 then "2006-01-02T15:04:05.999" else "2006-01-02 15:04:05.999"
  else if 10 < bs.length ∧ bs[10]? = some 84 then "2006-01-02T15:04:05.999Z07:00"
  else "2006-01-02 15:04:05.999Z07:00"

/-- One result column of the current row, as seen through the native
accessors the scan methods call.  `ctype` is sqlite3_column_type;
`textV`/`blobV` are the sqlite3_column_text/blob pointers (`none` models
a NULL pointer); `intV`, `int64V`, `doubleV` are the results of the
engine-side coercions sqlite3_column_int/int64/double; `unixTimeV` and
`julianTimeV` are the time.Unix and JulianDayToLocalTime conversions the
Integer and Float arms of ScanTime apply. -/
structure Col where
  ctype : SQLType
  textV : Option String := none
  intV : Int := 0
  int64V : Int := 0
  doubleV : Rat := 0
  blobV : Option (List Nat) := none
  unixTimeV : GoDateTime := {}
  julianTimeV : GoDateTime := {}

/-- Consistency of the native accessors: the code treats a NULL pointer
from sqlite3_column_text/blob as the marker of a Null column. -/
def Col.wf (c : Col) : Prop :=
  (c.textV = none ↔ c.ctype = SQLType.null) ∧ (c.blobV = none ↔ c.ctype = SQLType.null)

/-- Result triple (value, isNull, err) of the Go scan methods. -/
structure Scanned (α : Type) where
  value : α
  isNull : Bool := false
  err : Option Err := none
deriving DecidableEq, Repr

/-- Mirrors `Stmt.ScanText`: null is detected from the text pointer. -/
def ScanText (c : Col) : String × Bool :=
  match c.textV with
  | none => ("", true)
  | some t => (t, false)

/-- Mirrors `Stmt.ScanInt` (sqlite3_column_int result widened to Go int). -/
def ScanInt (check : Bool) (c : Col) : Scanned Int :=
  if c.ctype = SQLType.null then { value := 0, isNull := true }
  else { value := c.intV, err := if check then checkTypeMismatch c.ctype .integer else none }

/-- Mirrors `Stmt.ScanInt64`. -/
def ScanInt64 (check : Bool) (c : Col) : Scanned Int :=
  if c.ctype = SQLType.null then { value := 0, isNull := true }
  else { value := c.int64V, err := if check then checkTypeMismatch c.ctype .integer else none }

/-- Go conversion byte(int32): the low eight bits. -/
def byteOfInt (i : Int) : Nat :=
  (i % 256).toNat

/-- Mirrors `Stmt.ScanByte` (sqlite3_column_int result narrowed to byte). -/
def ScanByte (check : Bool) (c : Col) : Scanned Nat :=
  if c.ctype = SQLType.null then { value := 0, isNull := true }
  else { value := byteOfInt c.intV, err := if check then checkTypeMismatch c.ctype .integer else none }

/-- Mirrors `Stmt.ScanBool` (the column value compared with 1). -/
def ScanBool (check : Bool) (c : Col) : Scanned Bool :=
  if c.ctype = SQLType.null then { value := false, isNull := true }
  else { value := decide (c.intV = 1), err := if check then checkTypeMismatch c.ctype .integer else none }

/-- Mirrors `Stmt.ScanDouble` (target storage class Float). -/
def ScanDouble (check : Bool) (c : Col) : Scanned Rat :=
  if c.ctype = SQLType.null then { value := 0, isNull := true }
  else { value := c.doubleV, err := if check then checkTypeMismatch c.ctype .float else none }

/-- Mirrors `Stmt.ScanBlob`: null is detected from the blob pointer. -/
def ScanBlob (c : Col) : List Nat × Bool :=
  match c.blobV with
  | none => ([], true)
  | some bs => (bs, false)

/-- Mirrors `Stmt.ScanTime` (src/stmt.go lines 949-1002).  The Text arm
selects a layout from the byte length and parses; a time.Parse failure
surfaces as the external parse error with the zero time as value.  The
default arm of the Go switch is a panic, modelled as a fault error. -/
def ScanTime (c : Col) : Scanned GoDateTime :=
  match c.ctype with
  | .null => { value := zeroGoTime, isNull := true }
  | .text =>
    let txt := c.textV.getD ""
    match goTimeParse (timeLayout (utf8Bytes txt)) txt with
    | some dt => { value := dt }
    | none => { value := zeroGoTime, err := some (.plain "time parse error") }
  | .integer => { value := c.unixTimeV }
  | .float => { value := c.julianTimeV }
  | .blob =>
    { value := zeroGoTime,
      err := some (.fault "The column type is not one of SQLITE_INTEGER, SQLITE_FLOAT, SQLITE_TEXT, or SQLITE_NULL") }

/-- Destination of `Stmt.ScanByIndex`, carrying the current contents of
the pointed-to memory.  A single-level pointer destination carries the
pointed-to cell; a double-pointer destination carries the outer pointer
as an `Option` of the inner cell (`none` models a nil outer pointer; a
write through a nil outer pointer is a Go runtime fault and is only
reasoned about under a `some` hypothesis).  `dOther` stands for a
destination outside every supported set of the switch and of the
reflection fallback.  The sql.Scanner and pointer-to-interface arms are
not needed by any claim and are omitted. -/
inductive ScanDest where
  | dNil
  | dString (cell : String)
  | dPString (cell : Option String)
  | dInt (cell : Int)
  | dPInt (cell : Option Int)
  | dInt64 (cell : Int)
  | dPInt64 (cell : Option Int)
  | dByte (cell : Nat)
  | dPByte (cell : Option Nat)
  | dBool (cell : Bool)
  | dPBool (cell : Option Bool)
  | dDouble (cell : Rat)
  | dPDouble (cell : Option Rat)
  | dBlob (cell : List Nat)
  | dPBlob (cell : Option (List Nat))
  | dTime (cell : GoDateTime)
  | dOther (tyName : String)
deriving DecidableEq, Repr

/-- Mirrors `Stmt.ScanByIndex` (src/stmt.go lines 625-722): the switch on
the destination type.  Returns the destination with its updated cell
contents together with the (isNull, err) results of the Go call.  For the
double-pointer integer-family and float arms the Go code assigns only
when the scan error is nil; for all double-pointer arms a Null column
sets the outer pointer itself to nil. -/
def ScanByIndex (check : Bool) (c : Col) (d : ScanDest) : ScanDest × Bool × Option Err :=
  match d with
  | .dNil => (d, false, none)
  | .dString _ =>
    let r := ScanText c
    (.dString r.1, r.2, none)
  | .dPString cell =>
    let r := ScanText c
    if r.2 then (.dPString none, true, none)
    else (.dPString (cell.map fun _ => r.1), false, none)
  | .dInt _ =>
    let r := ScanInt check c
    (.dInt r.value, r.isNull, r.err)
  | .dPInt cell =>
    let r := ScanInt check c
    if r.err = none then
      if r.isNull then (.dPInt none, r.isNull, r.err)
      else (.dPInt (cell.map fun _ => r.value), r.isNull, r.err)
    else (.dPInt cell, r.isNull, r.err)
  | .dInt64 _ =>
    let r := ScanInt64 check c
    (.dInt64 r.value, r.isNull, r.err)
  | .dPInt64 cell =>
    let r := ScanInt64 check c
    if r.err = none then
      if r.isNull then (.dPInt64 none, r.isNull, r.err)
      else (.dPInt64 (cell.map fun _ => r.value), r.isNull, r.err)
    else (.dPInt64 cell, r.isNull, r.err)
  | .dByte _ =>
    let r := ScanByte check c
    (.dByte r.value, r.isNull, r.err)
  | .dPByte cell =>
    let r := ScanByte check c
    if r.err = none then
      if r.isNull then (.dPByte none, r.isNull, r.err)
      else (.dPByte (cell.map fun _ => r.value), r.isNull, r.err)
    else (.dPByte cell, r.isNull, r.err)
  | .dBool _ =>
    let r := ScanBool check c
    (.dBool r.value, r.isNull, r.err)
  | .dPBool cell =>
    let r := ScanBool check c
    if r.err = none then
      if r.isNull then (.dPBool none, r.isNull, r.err)
      else (.dPBool (cell.map fun _ => r.value), r.isNull, r.err)
    else (.dPBool cell, r.isNull, r.err)
  | .dDouble _ =>
    let r := ScanDouble check c
    (.dDouble r.value, r.isNull, r.err)
  | .dPDouble cell =>
    let r := ScanDouble check c
    if r.err = none then
      if r.isNull then (.dPDouble none, r.isNull, r.err)
      else (.dPDouble (cell.map fun _ => r.value), r.isNull, r.err)
    else (.dPDouble cell, r.isNull, r.err)
  | .dBlob _ =>
    let r := ScanBlob c
    (.dBlob r.1, r.2, none)
  | .dPBlob cell =>
    let r := ScanBlob c
    if r.2 then (.dPBlob none, true, none)
    else (.dPBlob (cell.map fun _ => r.1), false, none)
  | .dTime _ =>
    let r := ScanTime c
    (.dTime r.value, r.isNull, r.err)
  | .dOther ty =>
    (d, false, some (.specific ("unsupported type in Scan: " ++ ty)))

/-- Value stored in a host parameter by a native bind call, together with
the storage class the engine will report for it. -/
inductive Bound where
  | bNull
  | bInteger (i : Int)
  | bDouble (r : Rat)
  | bText (s : String) (len : Nat)
  | bBlob (bs : List Nat)
  | bZeroBlob (n : Int)
deriving DecidableEq, Repr

/-- Storage class of a bound value. -/
def Bound.storageClass : Bound → SQLType
  | .bNull => .null
  | .bInteger _ => .integer
  | .bDouble _ => .float
  | .bText _ _ => .text
  | .bBlob _ => .blob
  | .bZeroBlob _ => .blob

/-- State-changing or state-reading native calls the layer performs,
recorded so theorems can state what reached the engine. -/
inductive NativeEv where
  | bindEv (idx : Nat) (b : Bound)
  | stepEv (handle : Option Nat)
  | resetEv (handle : Option Nat)
  | finalizeEv (handle : Nat)
  | changesEv
  | rowidEv
deriving DecidableEq, Repr

/-- Host-side dynamic value handed to `Stmt.BindByIndex`.  `vInt` is the
Go type int on a 64-bit platform; `vByte` is the Go type byte;
`vTime` carries the observables the code consults on a time.Time value
(IsZero and Unix); `vValuer` is a driver.Valuer whose Value() call
yielded the inner value; the `vReflect` constructors are values whose
static type reaches the reflection fallback `Stmt.BindReflect` (for
example int8, int16, int32, the uint family, or named kinds); `vOther`
is a value outside every supported set. -/
inductive HostValue where
  | vNil
  | vString (s : String)
  | vInt (i : Int)
  | vInt64 (i : Int)
  | vByte (b : Nat)
  | vBool (b : Bool)
  | vFloat32 (r : Rat)
  | vFloat64 (r : Rat)
  | vBlob (bs : List Nat)
  | vTime (isZero : Bool) (unix : Int)
  | vZeroBlobLength (n : Int)
  | vValuer (inner : HostValue)
  | vReflectString (s : String)
  | vReflectInt (i : Int)
  | vReflectUint (u : Nat)
  | vReflectBool (b : Bool)
  | vReflectFloat (r : Rat)
  | vOther (tyName : String)
deriving DecidableEq, Repr

/-- Package-level null policies NullIfEmptyString and NullIfZeroTime of
src/stmt.go (both default true). -/
structure BindPolicy where
  nullIfEmptyString : Bool := true
  nullIfZeroTime : Bool := true
deriving DecidableEq, Repr

/-- Go conversion C.int(v) for v of type int: truncation to 32 bits. -/
def trunc32 (i : Int) : Int :=
  (i + 2 ^ 31) % 2 ^ 32 - 2 ^ 31

/-- Largest 64-bit signed value, math.MaxInt64. -/
def maxInt64 : Nat := 2 ^ 63 - 1

/-- Mirrors `Stmt.BindReflect` (src/stmt.go lines 380-405): dispatch on
the reflect Kind; an unsigned value above math.MaxInt64 is rejected
before any native call; anything outside the closed kind set is a local
unsupported-type error. -/
def BindReflect (idx : Nat) (v : HostValue) : Option Err × List NativeEv :=
  match v with
  | .vReflectString s => (none, [.bindEv idx (.bText s (utf8Bytes s).length)])
  | .vReflectInt i => (none, [.bindEv idx (.bInteger i)])
  | .vReflectUint u =>
    if u > maxInt64 then (some (.specific "int overflow"), [])
    else (none, [.bindEv idx (.bInteger u)])
  | .vReflectBool b => (none, [.bindEv idx (.bInteger (if b then 1 else 0))])
  | .vReflectFloat r => (none, [.bindEv idx (.bDouble r)])
  | .vOther ty => (some (.specific ("unsupported type in Bind: " ++ ty)), [])
  | _ => (some (.specific "unsupported type in Bind"), [])

/-- Mirrors `Stmt.BindByIndex` (src/stmt.go lines 326-375): the switch on
the dynamic type of the value.  The Go int arm passes the value through
C.int to sqlite3_bind_int, truncating to 32 bits; int64 goes through
sqlite3_bind_int64 unchanged; a string binds Null under the null-if-empty
policy and otherwise Text with its explicit byte length (helper cstring);
a zero time binds Null under the null-if-zero policy and otherwise the
Unix seconds as Integer; a driver.Valuer recurses on the value it
yields; everything else falls to `BindReflect`. -/
def BindByIndex (pol : BindPolicy) (idx : Nat) (v : HostValue) : Option Err × List NativeEv :=
  match v with
  | .vNil => (none, [.bindEv idx .bNull])
  | .vString s =>
    if pol.nullIfEmptyString ∧ (utf8Bytes s).length = 0 then (none, [.bindEv idx .bNull])
    else (none, [.bindEv idx (.bText s (utf8Bytes s).length)])
  | .vInt i => (none, [.bindEv idx (.bInteger (trunc32 i))])
  | .vInt64 i => (none, [.bindEv idx (.bInteger i)])
  | .vByte b => (none, [.bindEv idx (.bInteger b)])
  | .vBool b => (none, [.bindEv idx (.bInteger (if b then 1 else 0))])
  | .vFloat32 r => (none, [.bindEv idx (.bDouble r)])
  | .vFloat64 r => (none, [.bindEv idx (.bDouble r)])
  | .vBlob bs => (none, [.bindEv idx (.bBlob bs)])
  | .vTime isZero unix =>
    if pol.nullIfZeroTime ∧ isZero then (none, [.bindEv idx .bNull])
    else (none, [.bindEv idx (.bInteger unix)])
  | .vZeroBlobLength n => (none, [.bindEv idx (.bZeroBlob n)])
  | .vValuer inner => BindByIndex pol idx inner
  | _ => BindReflect idx v

/-- Prepared statement.  `handle` is the native sqlite3_stmt pointer
(`none` after finalization models the nil pointer); `bindings` and
`active` are the engine-side bound parameter values and execution state
behind the handle; `params` and `colNames` are the native parameter and
column name tables; the two counts are the native counts (the Go lazy
cache with its -1 sentinel always resolves to these). -/
structure Stmt where
  handle : Option Nat := some 1
  sql : String := ""
  tail : String := ""
  columnCount : Nat := 0
  bindParameterCount : Nat := 0
  params : List (String × Nat) := []
  colNames : List String := []
  bindings : List Bound := []
  active : Bool := false
  checkTypeMismatch : Bool := true
  cacheable : Bool := false
deriving DecidableEq, Repr

/-- Native sqlite3_reset: terminates the current execution, leaving
bound parameter values and statement metadata in place. -/
def sqlite3Reset (st : Stmt) : Stmt :=
  { st with active := false }

/-- Mirrors `Stmt.BindParameterIndex`: the native name lookup (cached in
the Go code) returns 0 for an unknown name, which this layer turns into
a local invalid-name error. -/
def BindParameterIndex (st : Stmt) (name : String) : Except Err Nat :=
  match st.params.lookup name with
  | some i => .ok i
  | none => .error (.specific ("invalid parameter name: " ++ name))

/-- Mirrors `Stmt.ColumnIndex`: the name-to-index map is built from the
native column names (a duplicated name keeps the last index) and an
absent name is a local invalid-name error. -/
def ColumnIndex (st : Stmt) (name : String) : Except Err Nat :=
  match ((st.colNames.enum.map fun p => (p.2, p.1)).reverse).lookup name with
  | some i => .ok i
  | none => .error (.specific ("invalid column name: " ++ name))

/-- Binds the arguments one by one from index 1, stopping at the first
error, as the loop of `Stmt.Bind` does. -/
def bindLoop (pol : BindPolicy) : Nat → List HostValue → Option Err × List NativeEv
  | _, [] => (none, [])
  | i, v :: rest =>
    let r := BindByIndex pol i v
    match r.1 with
    | some e => (some e, r.2)
    | none =>
      let r2 := bindLoop pol (i + 1) rest
      (r2.1, r.2 ++ r2.2)

/-- Mirrors `Stmt.Bind` (src/stmt.go lines 302-315): an argument count
different from the cached parameter count is a local error returned
before any parameter is bound. -/
def Bind (pol : BindPolicy) (st : Stmt) (args : List HostValue) : Option Err × List NativeEv :=
  if st.bindParameterCount ≠ args.length then
    (some (.specific "incorrect argument count for Stmt.Bind"), [])
  else bindLoop pol 1 args

/-- Scans the row columns into the destinations one by one, stopping at
the first error, as the loop of `Stmt.Scan` does; returns the updated
destinations. -/
def scanLoop (check : Bool) : List Col → List ScanDest → Option Err × List ScanDest
  | c :: cs, d :: ds =>
    let r := ScanByIndex check c d
    match r.2.2 with
    | some e => (some e, [r.1])
    | none =>
      let r2 := scanLoop check cs ds
      (r2.1, r.1 :: r2.2)
  | _, _ => (none, [])

/-- Mirrors `Stmt.Scan` (src/stmt.go lines 552-565): an argument count
different from the cached column count is a local error returned before
any column is scanned. -/
def Scan (check : Bool) (st : Stmt) (row : List Col) (args : List ScanDest) : Option Err × List ScanDest :=
  if st.columnCount ≠ args.length then
    (some (.specific "incorrect argument count for Stmt.Scan"), [])
  else scanLoop check row args

/-- Mirrors `Stmt.Next` (src/stmt.go lines 424-436).  `rv` is the native
result code of sqlite3_step (100 is SQLITE_ROW, 101 is SQLITE_DONE): a
row returns true with no reset; anything else resets first, and a code
other than done is surfaced as a wrapped native error carrying the
statement SQL text. -/
def Next (st : Stmt) (rv : Int) : Stmt × Bool × Option Err × List NativeEv :=
  let st1 := { st with active := true }
  if rv = 100 then (st1, true, none, [.stepEv st.handle])
  else
    let st2 := sqlite3Reset st1
    if rv ≠ 101 then (st2, false, some (.native rv "Stmt.Next" st.sql), [.stepEv st.handle, .resetEv st.handle])
    else (st2, false, none, [.stepEv st.handle, .resetEv st.handle])

/-- Mirrors the private `Stmt.finalize` (src/stmt.go lines 1044-1062): a
nil handle is a no-op; a closed owning connection is an error that leaves
the handle untouched; otherwise the native handle is destroyed and the
field cleared.  The native sqlite3_finalize call is modelled as
succeeding (its failure arm logs and wraps, leaving the field set). -/
def finalizeStmt (dbLive : Bool) (s : Stmt) : Stmt × Option Err × List NativeEv :=
  match s.handle with
  | none => (s, none, [])
  | some h =>
    if dbLive then ({ s with handle := none }, none, [.finalizeEv h])
    else (s, some (.plain "sqlite statement with already closed database connection"), [])

/-- Connection with its statement cache pool (most-recently-used first)
and the engine-level change count and last-inserted rowid accessors. -/
structure Conn where
  db : Option Nat := some 1
  stmtCache : List Stmt := []
  cacheMaxLen : Nat := 10
  changes : Int := 0
  lastInsertRowid : Int := 0
deriving DecidableEq, Repr

/-- Removes the first pool entry whose SQL text matches exactly. -/
def extractCached (sql : String) : List Stmt → Option Stmt × List Stmt
  | [] => (none, [])
  | s :: rest =>
    if s.sql = sql then (some s, rest)
    else
      let r := extractCached sql rest
      (r.1, s :: r.2)

/-- Modelled from the spec: the StatementCache implementation is not
under src/ (only its callers in src/stmt.go are).  Per the spec,
find(sql) removes and returns the most-recently-used idle entry exactly
matching the SQL text byte for byte, or reports absence. -/
def cacheFind (c : Conn) (sql : String) : Option Stmt × Conn :=
  let r := extractCached sql c.stmtCache
  (r.1, { c with stmtCache := r.2 })

/-- Modelled from the spec: the StatementCache implementation is not
under src/.  Per the spec, release(stmt) resets the statement bindings
and execution state; on success it is inserted most-recently-used and,
when capacity is exceeded, the least-recently-used entry is evicted and
destroyed with destruction failures suppressed; when the reset fails the
statement is destroyed outright instead of cached. -/
def cacheRelease (c : Conn) (s : Stmt) (resetOk : Bool) : Conn × Option Err × List NativeEv :=
  if resetOk then
    let pool := { s with active := false, bindings := [] } :: c.stmtCache
    let evicted := pool.drop c.cacheMaxLen
    ({ c with stmtCache := pool.take c.cacheMaxLen }, none,
      evicted.filterMap fun t => t.handle.map NativeEv.finalizeEv)
  else
    match s.handle with
    | some h => (c, some (.plain "statement reset failed"), [.finalizeEv h])
    | none => (c, some (.plain "statement reset failed"), [])

/-- Mirrors `Conn.Prepare` (src/stmt.go lines 121-138) without optional
bind arguments: the cache is consulted first; on a miss the private
prepare (the native compile, whose outcome is the `native` argument) is
invoked and a successful result is marked Cacheable. -/
def Prepare (c : Conn) (cmd : String) (native : Except Int Stmt) : Except Err (Stmt × Conn) :=
  match cacheFind c cmd with
  | (some s, c') => .ok (s, c')
  | (none, c') =>
    match native with
    | .error rv => .error (.native rv cmd "")
    | .ok s0 => .ok ({ s0 with cacheable := true }, c')

/-- Mirrors `Stmt.Finalize` (src/stmt.go lines 1035-1043): a Cacheable
statement on a live connection is handed to the cache release path;
everything else goes to the private finalize. -/
def Finalize (c : Conn) (s : Stmt) (resetOk : Bool) : Conn × Stmt × Option Err × List NativeEv :=
  if s.cacheable ∧ c.db ≠ none then
    let r := cacheRelease c s resetOk
    (r.1, s, r.2.1, r.2.2)
  else
    let r := finalizeStmt (c.db ≠ none) s
    (c, r.1, r.2.1, r.2.2)

/-- Mirrors `Stmt.ExecDml` (src/stmt.go lines 164-170): on success the
connection change count is read (recorded as an event). -/
def ExecDml (c : Conn) (execErr : Option Err) : Int × Option Err × List NativeEv :=
  match execErr with
  | some e => (-1, some e, [])
  | none => (c.changes, none, [.changesEv])

/-- Mirrors `Stmt.Insert` (src/stmt.go lines 175-184): an execution
error yields (-1, err); zero changed rows yield (-1, nil) without
reading the last-inserted rowid; otherwise the rowid accessor is read
(recorded as an event). -/
def Insert (c : Conn) (execErr : Option Err) : Int × Option Err × List NativeEv :=
  let r := ExecDml c execErr
  match r.2.1 with
  | some e => (-1, some e, r.2.2)
  | none =>
    if r.1 = 0 then (-1, none, r.2.2)
    else (c.lastInsertRowid, none, r.2.2 ++ [.rowidEv])

/-- C1: on a non-Null column with the CheckTypeMismatch flag enabled, the
typed scans error exactly on the lossy pairs: an integer-family
destination (int, int64, byte, bool) errors for a Float, Text or Blob
source; a float destination errors for a Text or Blob source (so an
Integer source into a float destination passes, and every other
combination passes); with the flag disabled no error is produced and the
native coercion result is returned. -/
theorem scan_typed_mismatch_exact :
    ∀ c : Col, c.ctype ≠ SQLType.null →
      ((((ScanInt true c).err ≠ none) ↔ (c.ctype = .float ∨ c.ctype = .text ∨ c.ctype = .blob)) ∧
       (((ScanInt64 true c).err ≠ none) ↔ (c.ctype = .float ∨ c.ctype = .text ∨ c.ctype = .blob)) ∧
       (((ScanByte true c).err ≠ none) ↔ (c.ctype = .float ∨ c.ctype = .text ∨ c.ctype = .blob)) ∧
       (((ScanBool true c).err ≠ none) ↔ (c.ctype = .float ∨ c.ctype = .text ∨ c.ctype = .blob)) ∧
       (((ScanDouble true c).err ≠ none) ↔ (c.ctype = .text ∨ c.ctype = .blob)) ∧
       ScanInt false c = { value := c.intV } ∧
       ScanInt64 false c = { value := c.int64V } ∧
       ScanByte false c = { value := byteOfInt c.intV } ∧
       ScanBool false c = { value := decide (c.intV = 1) } ∧
       ScanDouble false c = { value := c.doubleV }) := by
  intro c h
  cases hc : c.ctype <;>
    simp_all [ScanInt, ScanInt64, ScanByte, ScanBool, ScanDouble, checkTypeMismatch]

/-- Witness for scan_typed_mismatch_exact at a Text-classed column. -/
theorem scan_typed_mismatch_exact_witness :
    (ScanInt64 true { ctype := SQLType.text }).err ≠ none :=
  ((scan_typed_mismatch_exact { ctype := SQLType.text } (by decide)).2.1).mpr
    (Or.inr (Or.inl rfl))

/-- C4: evaluation of BindByIndex on the failing inputs.  A Go int value
just above the 32-bit range is bound through sqlite3_bind_int after a
C.int conversion and is stored truncated, contradicting the claim that
every signed value is stored as its full 64-bit value; int64 values and
in-range unsigned values are stored exactly, and an unsigned value above
the 64-bit signed maximum is rejected with the overflow error before any
native bind call. -/
theorem bindByIndex_int_truncation :
    BindByIndex {} 1 (.vInt 2147483648) = (none, [.bindEv 1 (.bInteger (-2147483648))]) ∧
    BindByIndex {} 1 (.vInt 4294967296) = (none, [.bindEv 1 (.bInteger 0)]) ∧
    ((-2147483648 : Int) ≠ 2147483648) ∧
    BindByIndex {} 1 (.vInt64 2147483648) = (none, [.bindEv 1 (.bInteger 2147483648)]) ∧
    BindReflect 2 (.vReflectUint (2 ^ 63)) = (some (.specific "int overflow"), []) ∧
    BindReflect 2 (.vReflectUint (2 ^ 63 - 1)) = (none, [.bindEv 2 (.bInteger (2 ^ 63 - 1))]) := by
  refine ⟨by decide, by decide, by decide, by decide, ?_, ?_⟩ <;>
    simp [BindReflect, maxInt64]

/-- C7: Next with a row result returns true with no reset (the only
native call recorded is the step); with a done result the execution
state is reset at once while bound values, SQL text and cached counts
are untouched, and false with no error is returned; with any other
result the statement is reset and a wrapped native error carrying the
statement SQL text is returned. -/
theorem next_step_semantics :
    (∀ st : Stmt, Next st 100 = ({ st with active := true }, true, none, [.stepEv st.handle])) ∧
    (∀ st : Stmt,
      Next st 101 = ({ st with active := false }, false, none, [.stepEv st.handle, .resetEv st.handle]) ∧
      (Next st 101).1.bindings = st.bindings ∧
      (Next st 101).1.sql = st.sql ∧
      (Next st 101).1.columnCount = st.columnCount ∧
      (Next st 101).1.bindParameterCount = st.bindParameterCount ∧
      (Next st 101).1.params = st.params ∧
      (Next st 101).1.colNames = st.colNames) ∧
    (∀ (st : Stmt) (rv : Int), rv ≠ 100 → rv ≠ 101 →
      Next st rv =
        ({ st with active := false }, false, some (.native rv "Stmt.Next" st.sql),
          [.stepEv st.handle, .resetEv st.handle])) := by
  refine ⟨fun st => by simp [Next], fun st => ?_, fun st rv h1 h2 => by simp [Next, sqlite3Reset, h1, h2]⟩
  simp [Next, sqlite3Reset]

/-- Witness for next_step_semantics at a concrete statement and the
native busy result code. -/
theorem next_step_semantics_witness :
    Next { sql := "S" } 5 =
      ({ sql := "S", active := false }, false, some (.native 5 "Stmt.Next" "S"),
        [.stepEv (some 1), .resetEv (some 1)]) :=
  next_step_semantics.2.2 { sql := "S" } 5 (by decide) (by decide)

/-- C8: a string value binds Null when the null-if-empty policy is on
and the byte length is zero, and otherwise binds Text carrying the
string with its explicit byte length; in particular with the policy off
the empty string binds a Text value of length 0, and the storage classes
are Null and Text respectively. -/
theorem bindString_policy :
    (∀ (pol : BindPolicy) (idx : Nat) (s : String),
      pol.nullIfEmptyString = true → (utf8Bytes s).length = 0 →
      BindByIndex pol idx (.vString s) = (none, [.bindEv idx .bNull]) ∧
      Bound.bNull.storageClass = SQLType.null) ∧
    (∀ (pol : BindPolicy) (idx : Nat) (s : String),
      pol.nullIfEmptyString = false ∨ (utf8Bytes s).length ≠ 0 →
      BindByIndex pol idx (.vString s) = (none, [.bindEv idx (.bText s (utf8Bytes s).length)]) ∧
      (Bound.bText s (utf8Bytes s).length).storageClass = SQLType.text) ∧
    BindByIndex { nullIfEmptyString := false } 1 (.vString "") = (none, [.bindEv 1 (.bText "" 0)]) := by
  refine ⟨fun pol idx s h1 h2 => ⟨by simp [BindByIndex, h1, h2], rfl⟩,
    fun pol idx s h => ⟨?_, rfl⟩, by decide⟩
  rcases h with h | h <;> simp [BindByIndex, h]

/-- Witness for bindString_policy: the empty string under the default
policy binds Null, and a one-byte string binds Text of length 1. -/
theorem bindString_policy_witness :
    BindByIndex {} 1 (.vString "") = (none, [.bindEv 1 .bNull]) ∧
    BindByIndex {} 1 (.vString "x") = (none, [.bindEv 1 (.bText "x" 1)]) :=
  ⟨(bindString_policy.1 {} 1 "" rfl (by decide)).1,
   (bindString_policy.2.1 {} 1 "x" (Or.inr (by decide))).1⟩

/-- C10: Insert with a successful execution that changed zero rows
returns rowid -1 with no error and never reads the last-inserted-rowid
accessor (no rowid event, for every accessor value); with a non-zero
change count the rowid is read from the connection; an execution error
propagates with rowid -1. -/
theorem insert_zero_changes :
    (∀ c : Conn, c.changes = 0 → Insert c none = (-1, none, [.changesEv])) ∧
    (∀ c : Conn, c.changes ≠ 0 →
      Insert c none = (c.lastInsertRowid, none, [.changesEv, .rowidEv])) ∧
    (∀ (c : Conn) (e : Err), Insert c (some e) = (-1, some e, [])) := by
  refine ⟨fun c h => by simp [Insert, ExecDml, h], fun c h => by simp [Insert, ExecDml, h],
    fun c e => by simp [Insert, ExecDml]⟩

/-- Witness for insert_zero_changes at connections with zero and with
one changed row and an arbitrary stored rowid. -/
theorem insert_zero_changes_witness :
    Insert { changes := 0, lastInsertRowid := 99 } none = (-1, none, [.changesEv]) ∧
    Insert { changes := 1, lastInsertRowid := 99 } none = (99, none, [.changesEv, .rowidEv]) :=
  ⟨insert_zero_changes.1 { changes := 0, lastInsertRowid := 99 } rfl,
   insert_zero_changes.2.1 { changes := 1, lastInsertRowid := 99 } (by decide)⟩

/-- C3: the parse layout for a Text-classed column is chosen purely from
the byte length of the string — 5 selects HH:MM, 8 HH:MM:SS, 10 the
date-only layout, 12 time with milliseconds, 16, 19 and 23 a date-time
layout whose variant is chosen by whether byte 10 is the letter T, and
every other length the full layout with optional fraction and zone,
again branching on byte 10 — and in particular the date-only text
parses to a date with zero time-of-day while the T-separated and the
space-separated 19-byte texts parse to the same instant. -/
theorem scanTime_layout_selection :
    (∀ bs : List Nat, bs.length = 5 → timeLayout bs = "15:04") ∧
    (∀ bs : List Nat, bs.length = 8 → timeLayout bs = "15:04:05") ∧
    (∀ bs : List Nat, bs.length = 10 → timeLayout bs = "2006-01-02") ∧
    (∀ bs : List Nat, bs.length = 12 → timeLayout bs = "15:04:05.000") ∧
    (∀ bs : List Nat, bs.length = 16 →
      timeLayout bs = if bs[10]? = some 84 then "2006-01-02T15:04" else "2006-01-02 15:04") ∧
    (∀ bs : List Nat, bs.length = 19 →
      timeLayout bs = if bs[10]? = some 84 then "2006-01-02T15:04:05" else "2006-01-02 15:04:05") ∧
    (∀ bs : List Nat, bs.length = 23 →
      timeLayout bs =
        if bs[10]? = some 84 then "2006-01-02T15:04:05.999" else "2006-01-02 15:04:05.999") ∧
    (∀ bs : List Nat, bs.length ∉ ([5, 8, 10, 12, 16, 19, 23] : List Nat) →
      timeLayout bs =
        if 10 < bs.length ∧ bs[10]? = some 84 then "2006-01-02T15:04:05.999Z07:00"
        else "2006-01-02 15:04:05.999Z07:00") ∧
    ScanTime { ctype := .text, textV := some "2020-01-02" } =
      { value := { year := 2020, month := 1, day := 2 } } ∧
    ScanTime { ctype := .text, textV := some "2020-01-02T10:30:00" } =
      ScanTime { ctype := .text, textV := some "2020-01-02 10:30:00" } ∧
    ScanTime { ctype := .text, textV := some "2020-01-02T10:30:00" } =
      { value := { year := 2020, month := 1, day := 2, hour := 10, minute := 30 } } := by
  refine ⟨fun bs h => by simp [timeLayout, h], fun bs h => by simp [timeLayout, h],
    fun bs h => by simp [timeLayout, h], fun bs h => by simp [timeLayout, h],
    fun bs h => by simp [timeLayout, h], fun bs h => by simp [timeLayout, h],
    fun bs h => by simp [timeLayout, h], fun bs h => ?_, by decide, by decide, by decide⟩
  simp only [List.mem_cons, List.not_mem_nil, or_false, not_or] at h
  obtain ⟨h5, h8, h10, h12, h16, h19, h23⟩ := h
  simp [timeLayout, h5, h8, h10, h12, h16, h19, h23]

/-- Witness for scanTime_layout_selection: a 10-byte text selects the
date-only layout and a 19-byte text with a space at byte 10 selects the
space-separated variant. -/
theorem scanTime_layout_selection_witness :
    timeLayout (utf8Bytes "2020-01-02") = "2006-01-02" ∧
    timeLayout (utf8Bytes "2020-01-02 10:30:00") = "2006-01-02 15:04:05" := by
  refine ⟨scanTime_layout_selection.2.2.1 (utf8Bytes "2020-01-02") (by decide), ?_⟩
  have h := scanTime_layout_selection.2.2.2.2.2.1 (utf8Bytes "2020-01-02 10:30:00") (by decide)
  simpa using h

/-- C2: scanning a Null-classed column assigns the zero value and
reports wasNull for every single-level typed pointer destination, sets
the outer pointer to nil without touching the inner value for every
double-pointer destination, and on a non-Null column a double-pointer
destination receives the extracted value through the inner pointer: the
string and byte-sequence arms unconditionally, the integer-family arms
whenever the type-mismatch policy does not reject the Integer pair, and
the float arm whenever it does not reject the Float pair (the only
cases in which the Go code raises an error and skips the assignment,
the interaction the spec leaves open). -/
theorem scanByIndex_null_handling :
    (∀ (check : Bool) (c : Col), c.wf → c.ctype = SQLType.null →
      ∀ (s0 : String) (i0 i1 : Int) (b0 : Nat) (q0 : Bool) (r0 : Rat) (bs0 : List Nat)
        (t0 : GoDateTime) (os : Option String) (oi oj : Option Int) (ob : Option Nat)
        (oq : Option Bool) (od : Option Rat) (obs : Option (List Nat)),
        ScanByIndex check c (.dString s0) = (.dString "", true, none) ∧
        ScanByIndex check c (.dInt i0) = (.dInt 0, true, none) ∧
        ScanByIndex check c (.dInt64 i1) = (.dInt64 0, true, none) ∧
        ScanByIndex check c (.dByte b0) = (.dByte 0, true, none) ∧
        ScanByIndex check c (.dBool q0) = (.dBool false, true, none) ∧
        ScanByIndex check c (.dDouble r0) = (.dDouble 0, true, none) ∧
        ScanByIndex check c (.dBlob bs0) = (.dBlob [], true, none) ∧
        ScanByIndex check c (.dTime t0) = (.dTime zeroGoTime, true, none) ∧
        ScanByIndex check c (.dPString os) = (.dPString none, true, none) ∧
        ScanByIndex check c (.dPInt oi) = (.dPInt none, true, none) ∧
        ScanByIndex check c (.dPInt64 oj) = (.dPInt64 none, true, none) ∧
        ScanByIndex check c (.dPByte ob) = (.dPByte none, true, none) ∧
        ScanByIndex check c (.dPBool oq) = (.dPBool none, true, none) ∧
        ScanByIndex check c (.dPDouble od) = (.dPDouble none, true, none) ∧
        ScanByIndex check c (.dPBlob obs) = (.dPBlob none, true, none)) ∧
    (∀ (check : Bool) (c : Col), c.wf → c.ctype ≠ SQLType.null →
      ∀ (x : String) (m : List Nat),
        ScanByIndex check c (.dPString (some x)) = (.dPString (some (c.textV.getD "")), false, none) ∧
        ScanByIndex check c (.dPBlob (some m)) = (.dPBlob (some (c.blobV.getD [])), false, none)) ∧
    (∀ (check : Bool) (c : Col), c.ctype ≠ SQLType.null →
      (check = true → checkTypeMismatch c.ctype .integer = none) →
      ∀ (y z : Int) (w : Nat) (u : Bool),
        ScanByIndex check c (.dPInt (some y)) = (.dPInt (some c.intV), false, none) ∧
        ScanByIndex check c (.dPInt64 (some z)) = (.dPInt64 (some c.int64V), false, none) ∧
        ScanByIndex check c (.dPByte (some w)) = (.dPByte (some (byteOfInt c.intV)), false, none) ∧
        ScanByIndex check c (.dPBool (some u)) = (.dPBool (some (decide (c.intV = 1))), false, none)) ∧
    (∀ (check : Bool) (c : Col), c.ctype ≠ SQLType.null →
      (check = true → checkTypeMismatch c.ctype .float = none) →
      ∀ d : Rat,
        ScanByIndex check c (.dPDouble (some d)) = (.dPDouble (some c.doubleV), false, none)) := by
  refine ⟨?_, ?_, ?_, ?_⟩
  · intro check c hwf hnull s0 i0 i1 b0 q0 r0 bs0 t0 os oi oj ob oq od obs
    have ht : c.textV = none := hwf.1.mpr hnull
    have hb : c.blobV = none := hwf.2.mpr hnull
    simp [ScanByIndex, ScanText, ScanInt, ScanInt64, ScanByte, ScanBool, ScanDouble,
      ScanBlob, ScanTime, hnull, ht, hb]
  · intro check c hwf hnn x m
    have ht : c.textV ≠ none := fun hh => hnn (hwf.1.mp hh)
    have hb : c.blobV ≠ none := fun hh => hnn (hwf.2.mp hh)
    obtain ⟨t, ht'⟩ := Option.ne_none_iff_exists'.mp ht
    obtain ⟨bl, hb'⟩ := Option.ne_none_iff_exists'.mp hb
    simp [ScanByIndex, ScanText, ScanBlob, ht', hb']
  · intro check c hnn hmi y z w u
    cases check with
    | false => simp [ScanByIndex, ScanInt, ScanInt64, ScanByte, ScanBool, hnn]
    | true => simp [ScanByIndex, ScanInt, ScanInt64, ScanByte, ScanBool, hnn, hmi rfl]
  · intro check c hnn hmf d
    cases check with
    | false => simp [ScanByIndex, ScanDouble, hnn]
    | true => simp [ScanByIndex, ScanDouble, hnn, hmf rfl]

/-- Witness for scanByIndex_null_handling at a Null column, a Text
column into a double string pointer with the check flag on, an Integer
column into a double int pointer, and a Float column into a double
float pointer with the check flag on. -/
theorem scanByIndex_null_handling_witness :
    ScanByIndex true { ctype := SQLType.null } (.dPInt (some 3)) = (.dPInt none, true, none) ∧
    ScanByIndex true { ctype := SQLType.text, textV := some "hi", blobV := some [104, 105] }
      (.dPString (some "old")) = (.dPString (some "hi"), false, none) ∧
    ScanByIndex true { ctype := SQLType.integer, intV := 7 } (.dPInt (some 3)) =
      (.dPInt (some 7), false, none) ∧
    ScanByIndex true { ctype := SQLType.float, doubleV := 3 } (.dPDouble (some 1)) =
      (.dPDouble (some 3), false, none) := by
  refine ⟨?_, ?_, ?_, ?_⟩
  · exact (scanByIndex_null_handling.1 true { ctype := SQLType.null } (by constructor <;> simp) rfl
      "" 0 0 0 false 0 [] zeroGoTime none (some 3) none none none none
      none).2.2.2.2.2.2.2.2.2.1
  · exact (scanByIndex_null_handling.2.1 true
      { ctype := SQLType.text, textV := some "hi", blobV := some [104, 105] }
      (by constructor <;> simp) (by decide) "old" []).1
  · exact (scanByIndex_null_handling.2.2.1 true { ctype := SQLType.integer, intV := 7 }
      (by decide) (fun _ => rfl) 3 0 0 false).1
  · exact scanByIndex_null_handling.2.2.2 true { ctype := SQLType.float, doubleV := 3 }
      (by decide) (fun _ => rfl) 1

/-- Helper: a statement returned by the pool extraction was a member of
the pool. -/
theorem extractCached_mem (sql : String) :
    ∀ (l : List Stmt) (t : Stmt), (extractCached sql l).1 = some t → t ∈ l := by
  intro l
  induction l with
  | nil => intro t ht; simp [extractCached] at ht
  | cons a rest ih =>
    intro t ht
    by_cases ha : a.sql = sql
    · simp [extractCached, ha] at ht
      simp [ht]
    · simp [extractCached, ha] at ht
      exact List.mem_cons_of_mem a (ih t ht)

/-- C5 counterexample: a statement whose owning connection is closed
does not have its native handle destroyed by Finalize — the call returns
an error and the handle field is left in place. -/
theorem finalize_closed_conn_counterexample :
    Finalize { db := none } { handle := some 7 } true =
      ({ db := none }, { handle := some 7 },
        some (.plain "sqlite statement with already closed database connection"), []) ∧
    ({ handle := some 7 } : Stmt).handle = some 7 := by
  constructor
  · simp [Finalize, finalizeStmt]
  · rfl

/-- C5 amended: Prepare consults the cache first (a hit is returned
without the native compile being involved) and every statement it
returns is marked Cacheable (the pool holding only Cacheable entries);
Finalize on a Cacheable statement with a live connection delegates to
the cache release path; a non-Cacheable statement with a live connection
has its native handle destroyed by Finalize; a statement whose owning
connection is closed gets an error from Finalize with its handle left in
place. -/
theorem prepare_finalize_cache :
    (∀ (c : Conn) (cmd : String) (s : Stmt) (c' : Conn),
      cacheFind c cmd = (some s, c') →
      ∀ native : Except Int Stmt, Prepare c cmd native = .ok (s, c')) ∧
    (∀ (c : Conn) (cmd : String) (native : Except Int Stmt) (s : Stmt) (c' : Conn),
      (∀ t ∈ c.stmtCache, t.cacheable = true) →
      Prepare c cmd native = .ok (s, c') → s.cacheable = true) ∧
    (∀ (c : Conn) (s : Stmt) (resetOk : Bool), s.cacheable = true → c.db ≠ none →
      Finalize c s resetOk =
        ((cacheRelease c s resetOk).1, s, (cacheRelease c s resetOk).2.1,
          (cacheRelease c s resetOk).2.2)) ∧
    (∀ (c : Conn) (s : Stmt) (resetOk : Bool) (h : Nat),
      s.cacheable = false → c.db ≠ none → s.handle = some h →
      Finalize c s resetOk = (c, { s with handle := none }, none, [.finalizeEv h])) ∧
    (∀ (c : Conn) (s : Stmt) (resetOk : Bool) (h : Nat), c.db = none → s.handle = some h →
      Finalize c s resetOk =
        (c, s, some (.plain "sqlite statement with already closed database connection"), [])) := by
  refine ⟨?_, ?_, ?_, ?_, ?_⟩
  · intro c cmd s c' hfind native
    simp [Prepare, hfind]
  · intro c cmd native s c' hwf hok
    unfold Prepare at hok
    rcases hfind : cacheFind c cmd with ⟨so, c''⟩
    rw [hfind] at hok
    cases so with
    | some t =>
      simp only [Except.ok.injEq, Prod.mk.injEq] at hok
      have ht : t ∈ c.stmtCache := by
        refine extractCached_mem cmd c.stmtCache t ?_
        have := congrArg Prod.fst hfind
        simpa [cacheFind] using this
      rw [← hok.1]
      exact hwf t ht
    | none =>
      cases native with
      | error rv => simp at hok
      | ok s0 =>
        simp only [Except.ok.injEq, Prod.mk.injEq] at hok
        rw [← hok.1]
  · intro c s resetOk hc hdb
    simp [Finalize, hc, hdb]
  · intro c s resetOk h hc hdb hh
    simp [Finalize, hc, finalizeStmt, hh, hdb]
  · intro c s resetOk h hdb hh
    simp [Finalize, hdb, finalizeStmt, hh]

/-- Witness for prepare_finalize_cache: a cache hit is returned as is, a
miss is marked Cacheable, and a live non-Cacheable statement is
destroyed. -/
theorem prepare_finalize_cache_witness :
    Prepare { stmtCache := [{ sql := "Q", cacheable := true }] } "Q" (.error 1) =
      .ok ({ sql := "Q", cacheable := true }, { stmtCache := [] }) ∧
    Finalize { } { handle := some 4 } true = ({ }, { handle := none }, none, [.finalizeEv 4]) := by
  constructor
  · exact prepare_finalize_cache.1 { stmtCache := [{ sql := "Q", cacheable := true }] } "Q"
      { sql := "Q", cacheable := true } { stmtCache := [] } (by decide) (.error 1)
  · exact prepare_finalize_cache.2.2.2.1 { } { handle := some 4 } true 4 rfl (by decide) rfl

/-- C6: the local failure modes are produced by this layer itself and
reach no native bind or scan — a bind arity mismatch returns the local
arity error with no parameter bound, a scan arity mismatch returns the
local arity error with no destination written, an unsupported bind or
scan type is a local error with no native bind for that parameter and no
value written, an unknown parameter or column name is a local error, and
every such error is of the locally generated kind. -/
theorem local_errors_stay_local :
    (∀ (pol : BindPolicy) (st : Stmt) (args : List HostValue),
      st.bindParameterCount ≠ args.length →
      Bind pol st args = (some (.specific "incorrect argument count for Stmt.Bind"), [])) ∧
    (∀ (check : Bool) (st : Stmt) (row : List Col) (args : List ScanDest),
      st.columnCount ≠ args.length →
      Scan check st row args = (some (.specific "incorrect argument count for Stmt.Scan"), [])) ∧
    (∀ (pol : BindPolicy) (idx : Nat) (ty : String),
      BindByIndex pol idx (.vOther ty) =
        (some (.specific ("unsupported type in Bind: " ++ ty)), [])) ∧
    (∀ (check : Bool) (c : Col) (ty : String),
      ScanByIndex check c (.dOther ty) =
        (.dOther ty, false, some (.specific ("unsupported type in Scan: " ++ ty)))) ∧
    (∀ (st : Stmt) (name : String), st.params.lookup name = none →
      BindParameterIndex st name = .error (.specific ("invalid parameter name: " ++ name))) ∧
    (∀ (st : Stmt) (name : String),
      ((st.colNames.enum.map fun p => (p.2, p.1)).reverse).lookup name = none →
      ColumnIndex st name = .error (.specific ("invalid column name: " ++ name))) ∧
    (∀ msg : String, (Err.specific msg).isLocal = true) := by
  refine ⟨fun pol st args h => by simp [Bind, h],
    fun check st row args h => by simp [Scan, h],
    fun pol idx ty => by simp [BindByIndex, BindReflect],
    fun check c ty => by simp [ScanByIndex],
    fun st name h => by simp [BindParameterIndex, h],
    fun st name h => by simp [ColumnIndex, h],
    fun msg => rfl⟩

/-- Witness for local_errors_stay_local: a one-parameter statement bound
with no arguments, and an unknown parameter name on a statement with an
empty parameter table. -/
theorem local_errors_stay_local_witness :
    Bind { } { bindParameterCount := 1 } [] =
      (some (.specific "incorrect argument count for Stmt.Bind"), []) ∧
    BindParameterIndex { } ":x" = .error (.specific ("invalid parameter name: " ++ ":x")) :=
  ⟨local_errors_stay_local.1 { } { bindParameterCount := 1 } [] (by decide),
   local_errors_stay_local.2.2.2.2.1 { } ":x" rfl⟩

/-- C9 counterexample: on a statement whose handle was destroyed by
finalization, Next does not fail with a locally detected
use-after-finalize error — the nil handle is passed to the native step
call (the step and reset events carry the nil handle) and the result is
a wrapped native error (the engine misuse code 21), which is not of the
locally generated kind. -/
theorem next_after_finalize_counterexample :
    Next { handle := none, sql := "SELECT 1" } 21 =
      ({ handle := none, sql := "SELECT 1" }, false, some (.native 21 "Stmt.Next" "SELECT 1"),
        [.stepEv none, .resetEv none]) ∧
    (Err.native 21 "Stmt.Next" "SELECT 1").isLocal = false := by
  constructor
  · simp [Next, sqlite3Reset]
  · rfl

/-- C9 amended: finalization on a live connection clears the handle
field and a repeated finalize is a no-op with no native call, but a
subsequent operation is not locally guarded — Next on a finalized
statement invokes the native engine with the nil handle and surfaces the
wrapped native error, not a locally generated error. -/
theorem finalized_stmt_not_guarded :
    (∀ (s : Stmt) (h : Nat), s.handle = some h →
      finalizeStmt true s = ({ s with handle := none }, none, [.finalizeEv h])) ∧
    (∀ (s : Stmt) (live : Bool), s.handle = none → finalizeStmt live s = (s, none, [])) ∧
    (∀ (s : Stmt) (rv : Int), s.handle = none → rv ≠ 100 → rv ≠ 101 →
      Next s rv = ({ s with active := false }, false, some (.native rv "Stmt.Next" s.sql),
        [.stepEv none, .resetEv none]) ∧
      (Err.native rv "Stmt.Next" s.sql).isLocal = false) := by
  refine ⟨fun s h hh => by simp [finalizeStmt, hh],
    fun s live hh => by simp [finalizeStmt, hh],
    fun s rv hh h1 h2 => ⟨by simp [Next, sqlite3Reset, h1, h2, hh], rfl⟩⟩

/-- Witness for finalized_stmt_not_guarded: destroying a concrete handle
and stepping the finalized statement with the misuse result code. -/
theorem finalized_stmt_not_guarded_witness :
    finalizeStmt true { handle := some 7 } = ({ handle := none }, none, [.finalizeEv 7]) ∧
    Next { handle := none } 21 =
      ({ handle := none }, false, some (.native 21 "Stmt.Next" ""), [.stepEv none, .resetEv none]) :=
  ⟨finalized_stmt_not_guarded.1 { handle := some 7 } 7 rfl,
   (finalized_stmt_not_guarded.2.2 { handle := none } 21 rfl (by decide) (by decide)).1⟩

end GoSqlite
